import Mathlib

/-!
Shallow embedding of the vatsim-open-data consistency-checking engine
(src/lib.rs, src/volume.rs, src/position.rs, src/sector.rs, src/airport.rs,
src/vateud8.rs) and proofs about its checks.

Modelling conventions:
* Rust `String` is modelled as `List Char` (`Str`).  Rust's byte-wise
  lexicographic `Ord` on UTF-8 strings coincides with the code-point
  lexicographic order on the char sequence, which we define as a Bool
  comparator.  `str.starts_with(p)` is `List.isPrefixOf p str`.
* Rust `HashMap<K, V>` is modelled as an association list `List (K × V)`;
  its arbitrary iteration order is the list order, and `HashMap::get` is
  `List.lookup` (keys of a real map are unique, so the first hit is the hit).
* itertools' `sorted_by_key` is a stable sort; we model it with Mathlib's
  stable `List.insertionSort` over the same key comparison.
* `Result<(), Vec<E>>` is `Except (List E) Unit`.
* Floating-point geometry (`geo::Polygon`, `geo::Point`) is never read by
  any check; it is carried as an uninterpreted marker structure.
-/

deriving instance DecidableEq for Except

namespace VatsimOpenData

/-- Rust `String`, as its sequence of unicode scalar values. -/
abbrev Str := List Char

/-- Rust `s.starts_with(p)` (string prefix test). -/
def strStartsWith (s p : Str) : Bool := List.isPrefixOf p s

/-- Rust `s.ends_with(p)` (string suffix test). -/
def strEndsWith (s p : Str) : Bool := List.isSuffixOf p s

/-- Rust `s.split('_').next().unwrap()`: the segment of `s` before the
first underscore (all of `s` when it has none). -/
def firstSegment (s : Str) : Str := s.takeWhile (fun c => c != '_')

/-- Strict byte-lexicographic order on strings (Rust `Ord` for `String`). -/
def strLtB : Str → Str → Bool
  | _, [] => false
  | [], _ :: _ => true
  | a :: as, b :: bs => decide (a < b) || (a == b && strLtB as bs)

/-- Non-strict byte-lexicographic order on strings. -/
def strLeB : Str → Str → Bool
  | [], _ => true
  | _ :: _, [] => false
  | a :: as, b :: bs => decide (a < b) || (a == b && strLeB as bs)

/-- Rust `Ord` for the pair `(String, String)` (lexicographic), as used by
`sorted_by_key(|(fir, id, _)| (fir, id))`. -/
def keyLeB (a b : Str × Str) : Bool :=
  strLtB a.1 b.1 || (a.1 == b.1 && strLeB a.2 b.2)

/-- The sort relation on `(region, id, payload)` triples. -/
def keyLe {α : Type} (a b : Str × Str × α) : Prop :=
  keyLeB (a.1, a.2.1) (b.1, b.2.1) = true

instance {α : Type} : DecidableRel (@keyLe α) :=
  fun _a _b => instDecidableEqBool _ true

/-! ### Data model (position.rs, sector.rs, airport.rs, volume.rs) -/

/-- Embeds `position.rs` `StationType`. -/
inductive StationType
  | ClearanceDelivery | Ramp | Radio | TrafficManagement | FlowManagement
  | Ground | Tower | Approach | Departure | Center | FlightServiceStation
  deriving DecidableEq

/-- Embeds `position.rs` `GcapTier`. -/
inductive GcapTier
  | One
  | Two (group : Str)
  deriving DecidableEq

/-- Embeds `position.rs` `Position`.  The Rust field `prefix` is a Lean keyword and
is embedded as `pfx`. -/
structure Position where
  frequency : Nat
  pfx : Str
  station_type : StationType
  name : Option Str
  radio_callsign : Str
  cpdlc_logon : Option Str
  airspace_groups : List Str
  gcap_tier : Option GcapTier
  deriving DecidableEq

/-- Embeds `position.rs` `PositionReference`. -/
structure PositionReference where
  fir : Option Str
  id : Str
  deriving DecidableEq

/-- Embeds `airport.rs` `RunwayReference`. -/
structure RunwayReference where
  icao : Str
  designator : Str
  deriving DecidableEq

/-- Embeds `sector.rs` `Sector`. -/
structure Sector where
  name : Option Str
  volumes : List Str
  runway_filter : List (List RunwayReference)
  position_priority : List (List PositionReference)
  deriving DecidableEq

/-- Marker for `geo::Point` (floating-point location, read by no check). -/
structure Point where
  deriving DecidableEq

/-- Embeds `airport.rs` `Airport`. -/
structure Airport where
  name : Str
  iata_designator : Option Str
  location : Point
  elevation : Option Int
  position_priority : List (List PositionReference)
  runways : List Str
  deriving DecidableEq

/-- Marker for `geo::Polygon` (floating-point boundary, read by no check). -/
structure Polygon where
  deriving DecidableEq

/-- Embeds `volume.rs` `Volume`. -/
structure Volume where
  lower_level : Nat
  upper_level : Nat
  lateral_bounds : Polygon
  deriving DecidableEq

/-- Embeds `volume.rs` `ConstraintError`. -/
inductive ConstraintError
  | LowerLevelGreater
  | UpperLevelMaximum
  deriving DecidableEq

/-- Embeds `volume.rs` `Volume::check_level`. -/
def Volume.check_level (v : Volume) : Except ConstraintError Unit :=
  if v.lower_level ≥ v.upper_level then .error .LowerLevelGreater
  else if v.upper_level > 999 then .error .UpperLevelMaximum
  else .ok ()

/-! ### lib.rs: FIR, OpenData, Config, and the intra-dataset checks -/

/-- Embeds `lib.rs` `FIR` (each `HashMap` as an association list). -/
structure FIR where
  airports : List (Str × Airport)
  positions : List (Str × Position)
  sectors : List (Str × Sector)
  volumes : List (Str × Volume)
  deriving DecidableEq

/-- Embeds `lib.rs` `InvalidPositionReferenceType`. -/
inductive InvalidPositionReferenceType
  | Sector
  | Airport
  deriving DecidableEq

/-- Embeds `lib.rs` `Error`, restricted to the check-produced variants; the
loader-only variants (`FileRead`, `TomlDeserialize`, `ParseVolume`) belong to
the out-of-scope collaborators and cannot be produced by any check. -/
inductive Error
  | InvalidVolume (fir : Str) (vol : Str) (e : ConstraintError)
  | DuplicatePosition (fir1 : Str) (pos1 : Str) (fir2 : Str) (pos2 : Str)
  | InvalidPositionReference (kind : InvalidPositionReferenceType)
      (fir : Str) (owner : Str) (ref_fir : Str) (ref_pos : Str)
  deriving DecidableEq

/-- The per-FIR volume error list collected inside `FIR::run_checks`. -/
def FIR.volumeErrs (fir : FIR) : List (Str × ConstraintError) :=
  fir.volumes.filterMap (fun p =>
    match p.2.check_level with
    | .error e => some (p.1, e)
    | .ok _ => none)

/-- Embeds `lib.rs` `FIR::run_checks`. -/
def FIR.run_checks (fir : FIR) : Except (List (Str × ConstraintError)) Unit :=
  let errs := fir.volumeErrs
  if errs.isEmpty then .ok () else .error errs

/-- Embeds `lib.rs` `Vateud8Config`. -/
structure Vateud8Config where
  ignore_regions : List Nat
  ignore_extra : List Str
  deriving DecidableEq

/-- Embeds `lib.rs` `FirConfig`. -/
structure FirConfig where
  vateud8_region : Option Nat
  vateud8_ignore : List Str
  optional_frequency : Bool
  deriving DecidableEq

/-- Embeds `lib.rs` `Config`. -/
structure Config where
  vateud8 : Vateud8Config
  firs : List (Str × FirConfig)
  deriving DecidableEq

/-- Embeds `lib.rs` `OpenData`. -/
structure OpenData where
  firs : List (Str × FIR)
  config : Config
  deriving DecidableEq

/-- Embeds `lib.rs` `OpenData::positions`: all `(region, id, position)` triples. -/
def OpenData.positions (od : OpenData) : List (Str × Str × Position) :=
  od.firs.flatMap (fun fp =>
    fp.2.positions.map (fun pp => (fp.1, pp.1, pp.2)))

/-- Embeds `lib.rs` `OpenData::sectors`. -/
def OpenData.sectors (od : OpenData) : List (Str × Str × Sector) :=
  od.firs.flatMap (fun fp =>
    fp.2.sectors.map (fun sp => (fp.1, sp.1, sp.2)))

/-- Embeds `lib.rs` `OpenData::airports`. -/
def OpenData.airports (od : OpenData) : List (Str × Str × Airport) :=
  od.firs.flatMap (fun fp =>
    fp.2.airports.map (fun ap => (fp.1, ap.1, ap.2)))

/-- The duplicate-position filter of `OpenData::position_dupe_check`:
outer triple `t`, inner triple `u`; true when they are not the same
`(region, id)` slot, `t`'s prefix starts with `u`'s prefix, and frequency
and station type agree. -/
def dupePred (t u : Str × Str × Position) : Bool :=
  (t.1 != u.1 || t.2.1 != u.2.1)
    && strStartsWith t.2.2.pfx u.2.2.pfx
    && t.2.2.frequency == u.2.2.frequency
    && decide (t.2.2.station_type = u.2.2.station_type)

/-- The sorted triple sequence bound at the top of
`OpenData::position_dupe_check` (`sorted_by_key(|(fir, pos_id, _)| ...)`). -/
def OpenData.sortedPositions (od : OpenData) : List (Str × Str × Position) :=
  od.positions.insertionSort keyLe

/-- The error list collected inside `OpenData::position_dupe_check`. -/
def OpenData.dupeViolations (od : OpenData) : List Error :=
  od.sortedPositions.flatMap (fun t =>
    (od.sortedPositions.filter (fun u => dupePred t u)).map (fun u =>
      Error.DuplicatePosition t.1 t.2.1 u.1 u.2.1))

/-- Embeds `lib.rs` `OpenData::position_dupe_check`. -/
def OpenData.position_dupe_check (od : OpenData) : Except (List Error) Unit :=
  let errors := od.dupeViolations
  if errors.isEmpty then .ok () else .error errors

/-- Resolution of a reference's region: explicit value, or the owner's own
region when absent (`pos_ref.fir.as_ref().unwrap_or(fir_name)`). -/
def resolveRefFir (pos_ref : PositionReference) (fir_name : Str) : Str :=
  pos_ref.fir.getD fir_name

/-- Whether a reference fails to resolve: the region looked up in the
dataset, then the id in that region's position map
(`self.firs.get(...).and_then(|fir| fir.positions.get(&pos_ref.id)).is_none()`). -/
def refMissing (od : OpenData) (fir_name : Str) (pos_ref : PositionReference) : Bool :=
  ((od.firs.lookup (resolveRefFir pos_ref fir_name)).bind
    (fun fir => fir.positions.lookup pos_ref.id)).isNone

/-- The sector half of `OpenData::position_ref_check`. -/
def OpenData.sectorRefViolations (od : OpenData) : List Error :=
  (od.sectors.insertionSort keyLe).flatMap (fun t =>
    ((t.2.2.position_priority.flatten.filter (fun pos_ref =>
        refMissing od t.1 pos_ref)).map (fun pos_ref =>
      Error.InvalidPositionReference .Sector t.1 t.2.1
        (resolveRefFir pos_ref t.1) pos_ref.id)))

/-- The airport half of `OpenData::position_ref_check`. -/
def OpenData.airportRefViolations (od : OpenData) : List Error :=
  (od.airports.insertionSort keyLe).flatMap (fun t =>
    ((t.2.2.position_priority.flatten.filter (fun pos_ref =>
        refMissing od t.1 pos_ref)).map (fun pos_ref =>
      Error.InvalidPositionReference .Airport t.1 t.2.1
        (resolveRefFir pos_ref t.1) pos_ref.id)))

/-- The error list collected inside `OpenData::position_ref_check`
(sector errors chained before airport errors). -/
def OpenData.refViolations (od : OpenData) : List Error :=
  od.sectorRefViolations ++ od.airportRefViolations

/-- Embeds `lib.rs` `OpenData::position_ref_check`. -/
def OpenData.position_ref_check (od : OpenData) : Except (List Error) Unit :=
  let errors := od.refViolations
  if errors.isEmpty then .ok () else .error errors

/-- Rust `Result::err().unwrap_or_default()` on a `Result<(), Vec<E>>`. -/
def errOrNil {ε : Type} : Except (List ε) Unit → List ε
  | .error es => es
  | .ok _ => []

/-- Embeds `lib.rs` `OpenData::run_checks`: per-FIR volume checks (in map iteration
order), then the duplicate check, then the reference check; `Ok` exactly
when nothing was collected. -/
def OpenData.run_checks (od : OpenData) : Except (List Error) Unit :=
  let errs :=
    (od.firs.filterMap (fun fp =>
        match fp.2.run_checks with
        | .error errs => some (errs.map (fun ve =>
            Error.InvalidVolume fp.1 ve.1 ve.2))
        | .ok _ => none)).flatten
      ++ errOrNil od.position_dupe_check
      ++ errOrNil od.position_ref_check
  if errs.isEmpty then .ok () else .error errs

/-- The volume-check portion of `OpenData::run_checks`, as a plain list. -/
def OpenData.volumeViolations (od : OpenData) : List Error :=
  od.firs.flatMap (fun fp =>
    fp.2.volumeErrs.map (fun ve => Error.InvalidVolume fp.1 ve.1 ve.2))

/-- The violation list one volume contributes: `check_level` returns a
`Result<(), ConstraintError>`, so it yields at most one violation. -/
def Volume.levelViolations (v : Volume) : List ConstraintError :=
  match v.check_level with
  | .error e => [e]
  | .ok _ => []

/-! ### vateud8.rs: external registry reconciliation -/

/-- Marker for `chrono::NaiveDate` (stored, never read by the check). -/
structure NaiveDate where
  year : Int
  month : Nat
  day : Nat
  deriving DecidableEq

/-- Embeds `vateud8.rs` `Vateud8Position`.  The Rust field `prefix` is embedded as
`pfx`; `frequency` is the already-normalized integer Hz value. -/
structure Vateud8Position where
  region : Nat
  name : Str
  callsign : Str
  frequency : Nat
  pfx : Str
  updated_at : Option NaiveDate
  deriving DecidableEq

/-- Embeds `vateud8.rs` `Vateud8Data`. -/
structure Vateud8Data where
  positions : List Vateud8Position
  deriving DecidableEq

/-- Embeds `vateud8.rs` `Error`, restricted to the check-produced variants; the
`Fetch` variant belongs to the out-of-scope HTTP collaborator. -/
inductive Vateud8Error
  | RegionMismatch (fir : Str) (pos : Str) (found : Nat) (expected : Nat)
  | NotFound (fir : Str) (pos : Str)
  | Superfluous (name : Str)
  deriving DecidableEq

/-- The matching closure of `Vateud8Data::check`, written twice verbatim in
the source (once per phase): frequency equal AND ((external prefix non-empty
AND `vateud8_pos.prefix.starts_with(&position.prefix)`) OR
`position.prefix.starts_with(vateud8_pos.name.split('_').next().unwrap())`). -/
def vateud8Matches (vateud8_pos : Vateud8Position) (position : Position) : Bool :=
  vateud8_pos.frequency == position.frequency
    && ((!vateud8_pos.pfx.isEmpty && strStartsWith vateud8_pos.pfx position.pfx)
        || strStartsWith position.pfx (firstSegment vateud8_pos.name))

/-- Phase A of `Vateud8Data::check` (internal → external): the first
iterator chain, before `.chain(...)`. -/
def Vateud8Data.phaseA (d : Vateud8Data) (od : OpenData) : List Vateud8Error :=
  od.firs.flatMap (fun fp =>
    match od.config.firs.lookup fp.1 with
    | none => []
    | some fir_config =>
      match fir_config.vateud8_region with
      | none => []
      | some v8_region =>
        (fp.2.positions.filter (fun pp =>
            !fir_config.vateud8_ignore.contains pp.1)).filterMap
          (fun pp =>
            match d.positions.find? (fun vateud8_pos =>
                vateud8Matches vateud8_pos pp.2) with
            | some v8_pos =>
              if v8_pos.region != v8_region then
                some (Vateud8Error.RegionMismatch fp.1 pp.1 v8_pos.region v8_region)
              else none
            | none => some (Vateud8Error.NotFound fp.1 pp.1)))

/-- Phase B of `Vateud8Data::check` (external → internal, orphan
detection): the `.chain(...)` argument. -/
def Vateud8Data.phaseB (d : Vateud8Data) (od : OpenData) : List Vateud8Error :=
  (d.positions.filter (fun v8_pos =>
      !strEndsWith v8_pos.name "_ATIS".toList
        && !od.config.vateud8.ignore_regions.contains v8_pos.region
        && !od.config.vateud8.ignore_extra.contains v8_pos.name)).filterMap
    (fun vateud8_pos =>
      if ((od.config.firs.filter (fun nc =>
              nc.2.vateud8_region == some vateud8_pos.region)).filterMap
            (fun nc => od.firs.lookup nc.1)).flatMap (fun fir => fir.positions)
          |>.any (fun pp => vateud8Matches vateud8_pos pp.2)
      then none
      else some (Vateud8Error.Superfluous vateud8_pos.name))

/-- Embeds `vateud8.rs` `Vateud8Data::check`. -/
def Vateud8Data.check (d : Vateud8Data) (open_data : OpenData) :
    Except (List Vateud8Error) Unit :=
  let errors := d.phaseA open_data ++ d.phaseB open_data
  if errors.isEmpty then .ok () else .error errors

/-! ### Spec-side (claim) formulations, written from the claims' words -/

/-- Claim C3's reading of the volume check: each condition checked
independently, so both violations can fire for one volume. -/
def claimLevelViolations (v : Volume) : List ConstraintError :=
  (if v.lower_level ≥ v.upper_level then [ConstraintError.LowerLevelGreater] else [])
    ++ (if v.upper_level > 999 then [ConstraintError.UpperLevelMaximum] else [])

/-- Claim C1's description of reconciliation Phase A, parametrized by the
matching predicate: for every region whose config sets an external-region id
and every position not in its exemption list, take the first external entry
satisfying the predicate; none → `NotFound`; first match with a different
region → `RegionMismatch`. -/
def claimPhaseA (matchPred : Vateud8Position → Position → Bool)
    (d : Vateud8Data) (od : OpenData) : List Vateud8Error :=
  od.firs.flatMap (fun fp =>
    match od.config.firs.lookup fp.1 with
    | none => []
    | some fir_config =>
      match fir_config.vateud8_region with
      | none => []
      | some expected =>
        fp.2.positions.filterMap (fun pp =>
          if fir_config.vateud8_ignore.contains pp.1 then none
          else
            match d.positions.find? (fun e => matchPred e pp.2) with
            | none => some (Vateud8Error.NotFound fp.1 pp.1)
            | some e =>
              if e.region = expected then none
              else some (Vateud8Error.RegionMismatch fp.1 pp.1 e.region expected)))

/-- Claim C1's matching predicate as the claim words it: frequency equal AND
(the external entry's prefix is non-empty and is a prefix of the position's
prefix, OR the position's prefix is a prefix of the substring of the
external entry's name preceding its first underscore). -/
def claimC1Matches (e : Vateud8Position) (p : Position) : Bool :=
  e.frequency == p.frequency
    && ((!e.pfx.isEmpty && strStartsWith p.pfx e.pfx)
        || strStartsWith (firstSegment e.name) p.pfx)

/-- The positions of every region configured with the given external-region
id (claim C5's search domain for orphan detection). -/
def positionsOfRegionsConfiguredAs (od : OpenData) (region : Nat) :
    List (Str × Position) :=
  (od.config.firs.filter (fun nc => nc.2.vateud8_region == some region)).flatMap
    (fun nc =>
      match od.firs.lookup nc.1 with
      | some fir => fir.positions
      | none => [])

/-- Claim C5's description of Phase B: `Superfluous(name)` exactly for the
external entries passing all three gates with no internal counterpart. -/
def claimPhaseB (d : Vateud8Data) (od : OpenData) : List Vateud8Error :=
  (d.positions.filter (fun e =>
      !strEndsWith e.name "_ATIS".toList
        && !od.config.vateud8.ignore_regions.contains e.region
        && !od.config.vateud8.ignore_extra.contains e.name
        && !(positionsOfRegionsConfiguredAs od e.region).any
              (fun pp => vateud8Matches e pp.2))).map
    (fun e => Vateud8Error.Superfluous e.name)

/-- Claim C2's description of the duplicate check: filter the full cross
product of the sorted sequence with itself, then emit in traversal order. -/
def claimDupeViolations (od : OpenData) : List Error :=
  ((od.sortedPositions.flatMap (fun a =>
      od.sortedPositions.map (fun b => (a, b)))).filter
      (fun p => dupePred p.1 p.2)).map
    (fun p => Error.DuplicatePosition p.1.1 p.1.2.1 p.2.1 p.2.2.1)

/-- Claim C4's per-owner reference errors: flatten `position_priority`,
resolve each reference's region (explicit value or the owner's region), and
emit exactly one violation per reference whose id is not present in the
resolved region's position map. -/
def claimOwnerRefErrors (od : OpenData) (kind : InvalidPositionReferenceType)
    (region owner : Str) (priority : List (List PositionReference)) : List Error :=
  priority.flatten.filterMap (fun pos_ref =>
    let ref_region := pos_ref.fir.getD region
    match od.firs.lookup ref_region with
    | none => some (Error.InvalidPositionReference kind region owner ref_region pos_ref.id)
    | some fir =>
      match fir.positions.lookup pos_ref.id with
      | some _ => none
      | none => some (Error.InvalidPositionReference kind region owner ref_region pos_ref.id))

/-- Claim C4's description of the reference check: sectors before airports,
each group sorted by (region, id). -/
def claimRefViolations (od : OpenData) : List Error :=
  (od.sectors.insertionSort keyLe).flatMap (fun t =>
      claimOwnerRefErrors od .Sector t.1 t.2.1 t.2.2.position_priority)
    ++ (od.airports.insertionSort keyLe).flatMap (fun t =>
      claimOwnerRefErrors od .Airport t.1 t.2.1 t.2.2.position_priority)

/-- The (region, entity-id) key a violation is tagged with (claim C8). -/
def errorKey : Error → Str × Str
  | .InvalidVolume f v _ => (f, v)
  | .DuplicatePosition f p _ _ => (f, p)
  | .InvalidPositionReference _ f o _ _ => (f, o)

/-- Forget every region's `optional_frequency` flag (claim C9). -/
def scrubFirConfig (c : FirConfig) : FirConfig :=
  { c with optional_frequency := false }

/-- Forget all `optional_frequency` flags of a configuration (claim C9):
two configurations differing only in those flags scrub to the same value. -/
def scrubConfig (cfg : Config) : Config :=
  { cfg with firs := cfg.firs.map (fun nc => (nc.1, scrubFirConfig nc.2)) }

/-! ### Concrete fixtures -/

/-- A position record with only the check-relevant fields filled in. -/
def mkPosition (frequency : Nat) (pfx : Str) (st : StationType) (callsign : Str) :
    Position :=
  { frequency := frequency, pfx := pfx, station_type := st, name := none,
    radio_callsign := callsign, cpdlc_logon := none, airspace_groups := [],
    gcap_tier := none }

/-- An FIR holding only positions. -/
def mkPositionFir (positions : List (Str × Position)) : FIR :=
  { airports := [], positions := positions, sectors := [], volumes := [] }

/-- The three-region duplicate-check fixture of claim C2 (the repository's
`test_pos_dupe` test data). -/
def fixtureDupe : OpenData where
  firs :=
    [("TEST".toList, mkPositionFir
        [("POS1".toList, mkPosition 134150000 "EDMM".toList .Center "Test Radar".toList)]),
     ("AAAA".toList, mkPositionFir
        [("POS2".toList, mkPosition 134150000 "EDM".toList .Center "Aahh Radar".toList)]),
     ("EDMM".toList, mkPositionFir
        [("DMSD".toList, mkPosition 132305000 "EDDM".toList .Approach "Muenchen Director".toList),
         ("DMSE".toList, mkPosition 132305000 "ED".toList .Approach "Muenchen Director".toList)])]
  config := ⟨⟨[], []⟩, []⟩

/-- External registry for the C1 counterexample: frequency matches the one
internal position, the external prefix "ED" is a proper prefix of the
internal prefix "EDDM" (the claim's direction), but not vice versa (the
code's direction), and the name segment "XXXX" is a prefix of nothing. -/
def fixtureV8 : Vateud8Data :=
  ⟨[⟨9, "XXXX_CTR".toList, "Xxxx Radar".toList, 132305000, "ED".toList, none⟩]⟩

/-- Dataset for the C1 counterexample: one region `EDMM` configured with
external-region id 9 and one position with prefix "EDDM". -/
def fixtureC1 : OpenData where
  firs :=
    [("EDMM".toList, mkPositionFir
        [("DMSD".toList, mkPosition 132305000 "EDDM".toList .Approach "Muenchen Director".toList)])]
  config := ⟨⟨[], []⟩, [("EDMM".toList, ⟨some 9, [], false⟩)]⟩

/-- Dataset for the C8 counterexample: two regions in reverse-sorted map
iteration order, each with one bad volume. -/
def fixtureC8 : OpenData where
  firs :=
    [("B".toList, ⟨[], [], [], [("V".toList, ⟨10, 5, ⟨⟩⟩)]⟩),
     ("A".toList, ⟨[], [], [], [("W".toList, ⟨10, 5, ⟨⟩⟩)]⟩)]
  config := ⟨⟨[], []⟩, []⟩

/-- Dataset for the C5 witness: position `P` of region `R` sits in `R`'s
exemption list. -/
def fixtureC5 : OpenData where
  firs := [("R".toList, mkPositionFir [("P".toList, mkPosition 1 [] .Center [])])]
  config := ⟨⟨[], []⟩, [("R".toList, ⟨some 1, ["P".toList], false⟩)]⟩

/-- Configurations for the C9 witness: identical but for one region's
`optional_frequency` flag. -/
def fixtureC9a : OpenData where
  firs := [("R".toList, mkPositionFir [("P".toList, mkPosition 1 "E".toList .Center [])])]
  config := ⟨⟨[], []⟩, [("R".toList, ⟨some 1, [], false⟩)]⟩

/-- Same dataset as `fixtureC9a` with the flag set. -/
def fixtureC9b : OpenData where
  firs := [("R".toList, mkPositionFir [("P".toList, mkPosition 1 "E".toList .Center [])])]
  config := ⟨⟨[], []⟩, [("R".toList, ⟨some 1, [], true⟩)]⟩

/-- Dataset for the C10 witness: position `B` has an empty prefix and shares
frequency and station type with position `A`. -/
def fixtureC10 : OpenData where
  firs :=
    [("R".toList, mkPositionFir
        [("A".toList, mkPosition 100 "ED".toList .Center []),
         ("B".toList, mkPosition 100 [] .Center [])])]
  config := ⟨⟨[], []⟩, []⟩

/-! ### Order lemmas for the sort comparator -/

theorem strLeB_refl (a : Str) : strLeB a a = true := by
  induction a with
  | nil => rfl
  | cons x xs ih => simp [strLeB, ih]

theorem strLeB_trans : ∀ a b c : Str,
    strLeB a b = true → strLeB b c = true → strLeB a c = true
  | [], _, _, _, _ => rfl
  | _ :: _, [], _, h, _ => by simp [strLeB] at h
  | _ :: _, _ :: _, [], _, h => by simp [strLeB] at h
  | a :: as, b :: bs, c :: cs, h1, h2 => by
    simp only [strLeB, Bool.or_eq_true, Bool.and_eq_true, decide_eq_true_eq,
      beq_iff_eq] at h1 h2 ⊢
    rcases h1 with h1 | ⟨rfl, h1⟩
    · rcases h2 with h2 | ⟨rfl, h2⟩
      · exact Or.inl (lt_trans h1 h2)
      · exact Or.inl h1
    · rcases h2 with h2 | ⟨rfl, h2⟩
      · exact Or.inl h2
      · exact Or.inr ⟨rfl, strLeB_trans as bs cs h1 h2⟩

theorem strLtB_trans : ∀ a b c : Str,
    strLtB a b = true → strLtB b c = true → strLtB a c = true
  | _, [], _, h, _ => by simp [strLtB] at h
  | _, _ :: _, [], _, h => by simp [strLtB] at h
  | [], _ :: _, _ :: _, _, _ => rfl
  | a :: as, b :: bs, c :: cs, h1, h2 => by
    simp only [strLtB, Bool.or_eq_true, Bool.and_eq_true, decide_eq_true_eq,
      beq_iff_eq] at h1 h2 ⊢
    rcases h1 with h1 | ⟨rfl, h1⟩
    · rcases h2 with h2 | ⟨rfl, h2⟩
      · exact Or.inl (lt_trans h1 h2)
      · exact Or.inl h1
    · rcases h2 with h2 | ⟨rfl, h2⟩
      · exact Or.inl h2
      · exact Or.inr ⟨rfl, strLtB_trans as bs cs h1 h2⟩

theorem strLtB_trichotomy : ∀ a b : Str,
    strLtB a b = true ∨ a = b ∨ strLtB b a = true
  | [], [] => Or.inr (Or.inl rfl)
  | [], _ :: _ => Or.inl rfl
  | _ :: _, [] => Or.inr (Or.inr rfl)
  | a :: as, b :: bs => by
    rcases lt_trichotomy a b with h | rfl | h
    · exact Or.inl (by simp [strLtB, h])
    · rcases strLtB_trichotomy as bs with h | rfl | h
      · exact Or.inl (by simp [strLtB, h])
      · exact Or.inr (Or.inl rfl)
      · exact Or.inr (Or.inr (by simp [strLtB, h]))
    · exact Or.inr (Or.inr (by simp [strLtB, h]))

theorem strLeB_of_strLtB : ∀ a b : Str, strLtB a b = true → strLeB a b = true
  | [], _, _ => rfl
  | _ :: _, [], h => by simp [strLtB] at h
  | a :: as, b :: bs, h => by
    simp only [strLtB, strLeB, Bool.or_eq_true, Bool.and_eq_true] at h ⊢
    rcases h with h | ⟨h1, h2⟩
    · exact Or.inl h
    · exact Or.inr ⟨h1, strLeB_of_strLtB as bs h2⟩

theorem strLeB_total (a b : Str) : strLeB a b = true ∨ strLeB b a = true := by
  rcases strLtB_trichotomy a b with h | rfl | h
  · exact Or.inl (strLeB_of_strLtB _ _ h)
  · exact Or.inl (strLeB_refl a)
  · exact Or.inr (strLeB_of_strLtB _ _ h)

theorem keyLeB_refl (a : Str × Str) : keyLeB a a = true := by
  simp [keyLeB, strLeB_refl]

theorem keyLeB_trans {a b c : Str × Str}
    (h1 : keyLeB a b = true) (h2 : keyLeB b c = true) : keyLeB a c = true := by
  simp only [keyLeB, Bool.or_eq_true, Bool.and_eq_true, beq_iff_eq] at h1 h2 ⊢
  rcases h1 with h1 | ⟨e1, l1⟩
  · rcases h2 with h2 | ⟨e2, l2⟩
    · exact Or.inl (strLtB_trans _ _ _ h1 h2)
    · exact Or.inl (e2 ▸ h1)
  · rcases h2 with h2 | ⟨e2, l2⟩
    · exact Or.inl (e1.symm ▸ h2)
    · exact Or.inr ⟨e1.trans e2, strLeB_trans _ _ _ l1 l2⟩

theorem keyLeB_total (a b : Str × Str) : keyLeB a b = true ∨ keyLeB b a = true := by
  simp only [keyLeB, Bool.or_eq_true, Bool.and_eq_true, beq_iff_eq]
  rcases strLtB_trichotomy a.1 b.1 with h | h | h
  · exact Or.inl (Or.inl h)
  · rcases strLeB_total a.2 b.2 with h2 | h2
    · exact Or.inl (Or.inr ⟨h, h2⟩)
    · exact Or.inr (Or.inr ⟨h.symm, h2⟩)
  · exact Or.inr (Or.inl h)

instance {α : Type} : IsTrans (Str × Str × α) keyLe :=
  ⟨fun _ _ _ h1 h2 => keyLeB_trans h1 h2⟩

instance {α : Type} : IsTotal (Str × Str × α) keyLe :=
  ⟨fun a b => keyLeB_total (a.1, a.2.1) (b.1, b.2.1)⟩

/-! ### Generic list lemmas -/

theorem flatMap_congr {α β : Type} {f g : α → List β} {l : List α}
    (h : ∀ a ∈ l, f a = g a) : l.flatMap f = l.flatMap g := by
  induction l with
  | nil => rfl
  | cons x xs ih =>
    simp only [List.flatMap_cons]
    rw [h x (by simp), ih (fun a ha => h a (by simp [ha]))]

theorem filter_map_eq_filterMap {α β : Type} (p : α → Bool) (f : α → β) (l : List α) :
    (l.filter p).map f
      = l.filterMap (fun a => if p a then some (f a) else none) := by
  induction l with
  | nil => rfl
  | cons x xs ih =>
    by_cases h : p x <;> simp [List.filter_cons, List.filterMap_cons, h, ih]

theorem filterMap_filter_eq {α β : Type} (p : α → Bool) (f : α → Option β) (l : List α) :
    (l.filter p).filterMap f
      = l.filterMap (fun a => if p a then f a else none) := by
  induction l with
  | nil => rfl
  | cons x xs ih =>
    by_cases h : p x
    · simp [List.filter_cons, List.filterMap_cons, h, ih]
    · simp only [List.filter_cons, h, if_neg, List.filterMap_cons, ih,
        Bool.false_eq_true, if_false]

theorem filter_filterMap_none_some {α β : Type} (p q : α → Bool) (f : α → β)
    (l : List α) :
    (l.filter p).filterMap (fun a => if q a then none else some (f a))
      = (l.filter (fun a => p a && !q a)).map f := by
  induction l with
  | nil => rfl
  | cons x xs ih =>
    by_cases hp : p x <;> by_cases hq : q x <;>
      simp [List.filter_cons, List.filterMap_cons, hp, hq, ih]

theorem flatMap_filterMap {α β γ : Type} (g : α → Option β) (h : β → List γ)
    (l : List α) :
    (l.filterMap g).flatMap h
      = l.flatMap (fun a =>
          match g a with
          | some b => h b
          | none => []) := by
  induction l with
  | nil => rfl
  | cons x xs ih =>
    cases hg : g x <;>
      simp [List.filterMap_cons, List.flatMap_cons, hg, ih]

theorem lookup_map_value {β γ : Type} (g : β → γ) (k : Str) (l : List (Str × β)) :
    (l.map (fun nc => (nc.1, g nc.2))).lookup k = (l.lookup k).map g := by
  induction l with
  | nil => rfl
  | cons x xs ih =>
    by_cases h : k == x.1 <;> simp [List.lookup, h, ih]

theorem pairwise_of_forall {α : Type} {R : α → α → Prop} {l : List α}
    (h : ∀ a ∈ l, ∀ b ∈ l, R a b) : l.Pairwise R := by
  induction l with
  | nil => exact List.Pairwise.nil
  | cons x xs ih =>
    refine List.pairwise_cons.mpr ⟨fun b hb => h x (by simp) b (by simp [hb]), ?_⟩
    exact ih (fun a ha b hb => h a (by simp [ha]) b (by simp [hb]))

theorem pairwise_flatMap_of {α β : Type} {R : β → β → Prop} {r : α → α → Prop}
    {l : List α} {f : α → List β} (h : l.Pairwise r)
    (hblock : ∀ a ∈ l, (f a).Pairwise R)
    (hcross : ∀ a b, r a b → ∀ x ∈ f a, ∀ y ∈ f b, R x y) :
    (l.flatMap f).Pairwise R := by
  induction l with
  | nil => exact List.Pairwise.nil
  | cons x xs ih =>
    rcases List.pairwise_cons.mp h with ⟨hx, hxs⟩
    rw [List.flatMap_cons]
    refine List.pairwise_append.mpr
      ⟨hblock x (by simp), ih hxs (fun a ha => hblock a (by simp [ha])), ?_⟩
    intro p hp q hq
    rcases List.mem_flatMap.mp hq with ⟨b, hb, hqb⟩
    exact hcross x b (hx b hb) p hp q hqb

/-! ### Volume checks: claims C3 and C7 -/

/-- C3 (counterexample): the claim predicts that a volume violating both
level constraints emits both violations; `Volume::check_level` returns a
`Result<(), ConstraintError>` and stops at the first, so the volume
`{lower: 1005, upper: 1000}` emits only `LowerLevelGreater`. -/
theorem c3_counterexample :
    Volume.levelViolations ⟨1005, 1000, ⟨⟩⟩ = [ConstraintError.LowerLevelGreater]
      ∧ claimLevelViolations ⟨1005, 1000, ⟨⟩⟩
          = [ConstraintError.LowerLevelGreater, ConstraintError.UpperLevelMaximum]
      ∧ Volume.levelViolations ⟨1005, 1000, ⟨⟩⟩
          ≠ claimLevelViolations ⟨1005, 1000, ⟨⟩⟩ := by
  decide

/-- C3 (amended): per volume at most one violation is emitted:
`LowerLevelGreater` when `lower_level >= upper_level`, otherwise
`UpperLevelTooHigh` when `upper_level > 999`; a volume satisfying both
conditions yields only `LowerLevelGreater`. -/
theorem c3_theorem (v : Volume) :
    Volume.levelViolations v
      = if v.lower_level ≥ v.upper_level then [ConstraintError.LowerLevelGreater]
        else if v.upper_level > 999 then [ConstraintError.UpperLevelMaximum]
        else [] := by
  unfold Volume.levelViolations Volume.check_level
  by_cases h1 : v.lower_level ≥ v.upper_level <;>
    by_cases h2 : v.upper_level > 999 <;> simp [h1, h2]

/-- C7: for any dataset whose volumes all satisfy
`lower < upper <= 999` the volume check returns the empty list, and the
three boundary volumes behave exactly as the claim states. -/
theorem c7_theorem :
    (∀ od : OpenData,
        (∀ p ∈ od.firs, ∀ q ∈ p.2.volumes,
            q.2.lower_level < q.2.upper_level ∧ q.2.upper_level ≤ 999) →
          od.volumeViolations = [])
      ∧ Volume.check_level ⟨10, 5, ⟨⟩⟩ = .error .LowerLevelGreater
      ∧ Volume.check_level ⟨0, 1000, ⟨⟩⟩ = .error .UpperLevelMaximum
      ∧ Volume.check_level ⟨1000, 1005, ⟨⟩⟩ = .error .UpperLevelMaximum := by
  refine ⟨?_, by decide, by decide, by decide⟩
  intro od h
  unfold OpenData.volumeViolations
  rw [List.flatMap_eq_nil_iff]
  intro p hp
  have hv : p.2.volumeErrs = [] := by
    unfold FIR.volumeErrs
    rw [List.filterMap_eq_nil_iff]
    intro q hq
    rcases h p hp q hq with ⟨h1, h2⟩
    unfold Volume.check_level
    rw [if_neg (by omega), if_neg (by omega)]
  rw [hv]
  rfl

/-- C7 (witness): a concrete dataset with one well-formed volume has no
volume violations. -/
theorem c7_witness :
    (⟨[("A".toList, ⟨[], [], [], [("V".toList, ⟨0, 100, ⟨⟩⟩)]⟩)],
        ⟨⟨[], []⟩, []⟩⟩ : OpenData).volumeViolations = [] :=
  c7_theorem.1 _ (by decide)

/-! ### Aggregation: claim C6 -/

theorem errOrNil_ite {ε : Type} (l : List ε) :
    errOrNil (if l.isEmpty then Except.ok () else Except.error l) = l := by
  by_cases h : l.isEmpty
  · rw [if_pos h]
    exact (List.isEmpty_iff.mp h).symm
  · rw [if_neg h]
    rfl

theorem volumePortion_eq (od : OpenData) :
    (od.firs.filterMap (fun fp =>
        match fp.2.run_checks with
        | .error errs => some (errs.map (fun ve => Error.InvalidVolume fp.1 ve.1 ve.2))
        | .ok _ => none)).flatten
      = od.volumeViolations := by
  unfold OpenData.volumeViolations
  generalize od.firs = l
  have hfun : ∀ fp : Str × FIR,
      (match fp.2.run_checks with
        | .error errs => some (errs.map (fun ve => Error.InvalidVolume fp.1 ve.1 ve.2))
        | .ok _ => none)
        = if fp.2.volumeErrs = [] then none
          else some (fp.2.volumeErrs.map (fun ve => Error.InvalidVolume fp.1 ve.1 ve.2)) := by
    intro fp
    unfold FIR.run_checks
    by_cases h : fp.2.volumeErrs = []
    · simp [h]
    · simp [h, List.isEmpty_iff]
  rw [List.filterMap_congr (fun fp _ => hfun fp)]
  induction l with
  | nil => rfl
  | cons x xs ih =>
    rw [List.filterMap_cons, List.flatMap_cons]
    by_cases h : x.2.volumeErrs = []
    · simp [h, ih]
    · simp [h, ih]

/-- C6: `run_checks` concatenates the violation lists of the volume check,
the duplicate-position check and the reference check in exactly that order,
and returns `Ok` exactly when the combined list is empty; no check
suppresses or truncates another. -/
theorem c6_theorem (od : OpenData) :
    od.run_checks =
      if od.volumeViolations ++ od.dupeViolations ++ od.refViolations = []
      then Except.ok ()
      else Except.error
        (od.volumeViolations ++ od.dupeViolations ++ od.refViolations) := by
  unfold OpenData.run_checks
  rw [show errOrNil od.position_dupe_check = od.dupeViolations from errOrNil_ite _,
    show errOrNil od.position_ref_check = od.refViolations from errOrNil_ite _,
    volumePortion_eq]
  by_cases h : od.volumeViolations ++ od.dupeViolations ++ od.refViolations = []
  · simp [h]
  · simp [h, List.isEmpty_iff]

/-! ### Duplicate-position check: claim C2 -/

/-- C2: the duplicate check is exactly the filtered, non-deduplicated cross
product of the sorted triple sequence with itself, emitted in
outer-then-inner traversal order, and on the three-region fixture it yields
exactly the two expected violations in order. -/
theorem c2_theorem :
    (∀ od : OpenData, od.dupeViolations = claimDupeViolations od)
      ∧ fixtureDupe.dupeViolations
          = [Error.DuplicatePosition "EDMM".toList "DMSD".toList
               "EDMM".toList "DMSE".toList,
             Error.DuplicatePosition "TEST".toList "POS1".toList
               "AAAA".toList "POS2".toList] := by
  constructor
  · intro od
    unfold OpenData.dupeViolations claimDupeViolations
    rw [List.filter_flatMap, List.map_flatMap]
    apply flatMap_congr
    intro a _
    rw [List.filter_map, List.map_map]
    rfl
  · decide

/-! ### Reference check: claim C4 -/

/-- C4: the reference check traverses sectors then airports, each sorted by
(region, id), flattens `position_priority` in order, resolves each
reference's region (explicit value or owner's region), and emits exactly
one violation per reference whose id is absent from the resolved region's
position map. -/
theorem c4_theorem (od : OpenData) : od.refViolations = claimRefViolations od := by
  unfold OpenData.refViolations claimRefViolations
    OpenData.sectorRefViolations OpenData.airportRefViolations
  have hres : ∀ (kind : InvalidPositionReferenceType) (region owner : Str)
      (pos_ref : PositionReference),
      (if refMissing od region pos_ref
        then some (Error.InvalidPositionReference kind region owner
          (resolveRefFir pos_ref region) pos_ref.id)
        else none)
        = match od.firs.lookup (pos_ref.fir.getD region) with
          | none => some (Error.InvalidPositionReference kind region owner
              (pos_ref.fir.getD region) pos_ref.id)
          | some fir =>
            match fir.positions.lookup pos_ref.id with
            | some _ => none
            | none => some (Error.InvalidPositionReference kind region owner
                (pos_ref.fir.getD region) pos_ref.id) := by
    intro kind region owner pos_ref
    rcases hl : od.firs.lookup (pos_ref.fir.getD region) with _ | fir
    · simp [refMissing, resolveRefFir, hl]
    · rcases hp : fir.positions.lookup pos_ref.id with _ | pos
      · simp [refMissing, resolveRefFir, hl, hp]
      · simp [refMissing, resolveRefFir, hl, hp]
  congr 1
  · apply flatMap_congr
    intro t _
    unfold claimOwnerRefErrors
    rw [filter_map_eq_filterMap]
    exact List.filterMap_congr (fun pr _ => hres .Sector t.1 t.2.1 pr)
  · apply flatMap_congr
    intro t _
    unfold claimOwnerRefErrors
    rw [filter_map_eq_filterMap]
    exact List.filterMap_congr (fun pr _ => hres .Airport t.1 t.2.1 pr)

/-! ### Reconciliation Phase A: claim C1 -/

/-- C1 (counterexample): with external entry
(region 9, name "XXXX_CTR", prefix "ED", frequency 132305000) and internal
position (prefix "EDDM", frequency 132305000) in a region configured with
external-region id 9, the code finds no match (its test is
`external.prefix.starts_with(position.prefix)`) and emits `NotFound`, while
the claim's reversed directions ("external prefix is a prefix of the
position's prefix") find a matching entry with the correct region and
predict no violation. -/
theorem c1_counterexample :
    Vateud8Data.phaseA fixtureV8 fixtureC1
        = [Vateud8Error.NotFound "EDMM".toList "DMSD".toList]
      ∧ claimPhaseA claimC1Matches fixtureV8 fixtureC1 = []
      ∧ Vateud8Data.phaseA fixtureV8 fixtureC1
          ≠ claimPhaseA claimC1Matches fixtureV8 fixtureC1 := by
  decide

/-- C1 (amended): Phase A behaves exactly as the claim describes once the
two prefix directions are reversed: the first external entry with equal
frequency AND (external prefix non-empty and the position's prefix is a
prefix of it, OR the segment of the external name before the first
underscore is a prefix of the position's prefix); no match → `NotFound`,
first match with a different region → `RegionMismatch`. -/
theorem c1_theorem (d : Vateud8Data) (od : OpenData) :
    d.phaseA od = claimPhaseA vateud8Matches d od := by
  unfold Vateud8Data.phaseA claimPhaseA
  apply flatMap_congr
  intro fp _
  cases od.config.firs.lookup fp.1 with
  | none => rfl
  | some fir_config =>
    dsimp only
    cases fir_config.vateud8_region with
    | none => rfl
    | some expected =>
      dsimp only
      rw [filterMap_filter_eq]
      apply List.filterMap_congr
      intro pp _
      by_cases hign : fir_config.vateud8_ignore.contains pp.1
      · rw [hign]
        rfl
      · rw [Bool.not_eq_true] at hign
        rw [hign]
        cases d.positions.find? (fun e => vateud8Matches e pp.2) with
        | none => rfl
        | some e =>
          by_cases hr : e.region = expected
          · simp [hr]
          · simp [hr, bne_iff_ne]

/-! ### Reconciliation Phase B and exemptions: claim C5 -/

theorem phaseA_tag_not_ignored {d : Vateud8Data} {od : OpenData}
    {err : Vateud8Error} (hmem : err ∈ d.phaseA od) {region pid : Str}
    (htag : err = Vateud8Error.NotFound region pid
        ∨ ∃ found expected, err = Vateud8Error.RegionMismatch region pid found expected)
    {c : FirConfig} (hc : od.config.firs.lookup region = some c) :
    c.vateud8_ignore.contains pid = false := by
  obtain ⟨fp, hfp, hin⟩ := List.mem_flatMap.mp hmem
  revert hin
  cases hl : od.config.firs.lookup fp.1 with
  | none => intro hin; simp at hin
  | some fc =>
    dsimp only
    cases hr : fc.vateud8_region with
    | none => intro hin; simp at hin
    | some exp =>
      dsimp only
      intro hin
      obtain ⟨pp, hpp, hg⟩ := List.mem_filterMap.mp hin
      obtain ⟨hppmem, hnign⟩ := List.mem_filter.mp hpp
      have htags : fp.1 = region ∧ pp.1 = pid := by
        revert hg
        cases hf : d.positions.find? (fun e => vateud8Matches e pp.2) with
        | none =>
          intro hg
          dsimp only at hg
          rcases htag with h | ⟨found, expected, h⟩ <;> subst h
          · simp only [Option.some.injEq, Vateud8Error.NotFound.injEq] at hg
            exact hg
          · simp at hg
        | some v8 =>
          intro hg
          dsimp only at hg
          by_cases hne : (v8.region != exp) = true
          · rw [if_pos hne] at hg
            rcases htag with h | ⟨found, expected, h⟩ <;> subst h
            · simp at hg
            · simp only [Option.some.injEq, Vateud8Error.RegionMismatch.injEq] at hg
              exact ⟨hg.1, hg.2.1⟩
          · rw [if_neg hne] at hg
            exact Option.noConfusion hg
      rw [htags.1] at hl
      rw [hc] at hl
      cases hl
      rw [← htags.2]
      simpa using hnign

/-- C5: `Superfluous(name)` is emitted exactly for external entries passing
the three gates (no `_ATIS` suffix, region not globally ignored, name not
globally ignored) with no position of any region configured with the same
external-region id matching; and a position in a region's exemption list
never produces a Phase A violation. -/
theorem c5_theorem :
    (∀ (d : Vateud8Data) (od : OpenData), d.phaseB od = claimPhaseB d od)
      ∧ (∀ (d : Vateud8Data) (od : OpenData) (region pid : Str) (c : FirConfig),
          od.config.firs.lookup region = some c →
          c.vateud8_ignore.contains pid = true →
            Vateud8Error.NotFound region pid ∉ d.phaseA od
              ∧ ∀ found expected,
                  Vateud8Error.RegionMismatch region pid found expected ∉ d.phaseA od) := by
  constructor
  · intro d od
    unfold Vateud8Data.phaseB claimPhaseB
    rw [filter_filterMap_none_some]
    apply congrArg
    apply List.filter_congr
    intro e _
    have hlist : ((od.config.firs.filter (fun nc =>
            nc.2.vateud8_region == some e.region)).filterMap
          (fun nc => od.firs.lookup nc.1)).flatMap (fun fir => fir.positions)
        = positionsOfRegionsConfiguredAs od e.region := by
      rw [flatMap_filterMap]
      unfold positionsOfRegionsConfiguredAs
      apply flatMap_congr
      intro nc _
      cases od.firs.lookup nc.1 <;> rfl
    rw [hlist]
  · intro d od region pid c hc hcont
    constructor
    · intro hmem
      have h2 := phaseA_tag_not_ignored hmem (Or.inl rfl) hc
      rw [h2] at hcont
      exact Bool.noConfusion hcont
    · intro found expected hmem
      have h2 := phaseA_tag_not_ignored hmem (Or.inr ⟨found, expected, rfl⟩) hc
      rw [h2] at hcont
      exact Bool.noConfusion hcont

/-- C5 (witness): the Phase B equality at a concrete input, and the exempt
position `P` of region `R` produces no Phase A violation there. -/
theorem c5_witness :
    Vateud8Data.phaseB ⟨[]⟩ fixtureC5 = claimPhaseB ⟨[]⟩ fixtureC5
      ∧ Vateud8Error.NotFound "R".toList "P".toList
          ∉ Vateud8Data.phaseA ⟨[]⟩ fixtureC5 :=
  ⟨c5_theorem.1 ⟨[]⟩ fixtureC5,
   (c5_theorem.2 ⟨[]⟩ fixtureC5 "R".toList "P".toList
      ⟨some 1, ["P".toList], false⟩ (by decide) (by decide)).1⟩

/-! ### Output ordering: claim C8 -/

theorem pairwise_key_flatMap {α : Type} {l : List (Str × Str × α)}
    (hs : List.Sorted keyLe l) (f : (Str × Str × α) → List Error)
    (hkey : ∀ t u, u ∈ f t → errorKey u = (t.1, t.2.1)) :
    ((l.flatMap f).map errorKey).Pairwise fun a b => keyLeB a b = true := by
  rw [List.map_flatMap]
  apply pairwise_flatMap_of hs
  · intro a _
    apply pairwise_of_forall
    intro x hx y hy
    obtain ⟨u, hu, rfl⟩ := List.mem_map.mp hx
    obtain ⟨v, hv, rfl⟩ := List.mem_map.mp hy
    rw [hkey a u hu, hkey a v hv]
    exact keyLeB_refl _
  · intro a b hab x hx y hy
    obtain ⟨u, hu, rfl⟩ := List.mem_map.mp hx
    obtain ⟨v, hv, rfl⟩ := List.mem_map.mp hy
    rw [hkey a u hu, hkey b v hv]
    exact hab

/-- C8 (counterexample): the volume-check portion of `run_checks` is
emitted in map iteration order, not sorted by (region, volume-id): with the
firs map iterating `B` before `A`, the output keys are descending. -/
theorem c8_counterexample :
    fixtureC8.run_checks
        = .error [Error.InvalidVolume "B".toList "V".toList .LowerLevelGreater,
                  Error.InvalidVolume "A".toList "W".toList .LowerLevelGreater]
      ∧ ¬ ((fixtureC8.volumeViolations.map errorKey).Pairwise
            fun a b => keyLeB a b = true) := by
  decide

/-- C8 (amended): the duplicate-position check and both halves of the
reference check emit violations with non-decreasing (region, id) owner
keys (they sort by key before emitting); the volume-check portion of
`run_checks` follows the maps' internal iteration order and is not sorted. -/
theorem c8_theorem :
    (∀ od : OpenData,
        ((od.dupeViolations.map errorKey).Pairwise fun a b => keyLeB a b = true))
      ∧ (∀ od : OpenData,
        ((od.sectorRefViolations.map errorKey).Pairwise fun a b => keyLeB a b = true))
      ∧ (∀ od : OpenData,
        ((od.airportRefViolations.map errorKey).Pairwise fun a b => keyLeB a b = true)) := by
  refine ⟨?_, ?_, ?_⟩
  · intro od
    unfold OpenData.dupeViolations
    apply pairwise_key_flatMap (List.sorted_insertionSort keyLe _)
    intro t u hu
    obtain ⟨b, _, rfl⟩ := List.mem_map.mp hu
    rfl
  · intro od
    unfold OpenData.sectorRefViolations
    apply pairwise_key_flatMap (List.sorted_insertionSort keyLe _)
    intro t u hu
    obtain ⟨b, _, rfl⟩ := List.mem_map.mp hu
    rfl
  · intro od
    unfold OpenData.airportRefViolations
    apply pairwise_key_flatMap (List.sorted_insertionSort keyLe _)
    intro t u hu
    obtain ⟨b, _, rfl⟩ := List.mem_map.mp hu
    rfl

/-! ### `optional_frequency` is dead configuration: claim C9 -/

theorem run_checks_reads_only_firs (f : List (Str × FIR)) (c c' : Config) :
    OpenData.run_checks ⟨f, c⟩ = OpenData.run_checks ⟨f, c'⟩ := rfl

theorem phaseA_scrub (d : Vateud8Data) (od : OpenData) :
    d.phaseA ⟨od.firs, scrubConfig od.config⟩ = d.phaseA od := by
  unfold Vateud8Data.phaseA
  apply flatMap_congr
  intro fp _
  simp only [scrubConfig]
  rw [lookup_map_value]
  cases od.config.firs.lookup fp.1 with
  | none => rfl
  | some fc => rfl

theorem phaseB_scrub (d : Vateud8Data) (od : OpenData) :
    d.phaseB ⟨od.firs, scrubConfig od.config⟩ = d.phaseB od := by
  unfold Vateud8Data.phaseB
  simp only [scrubConfig]
  apply List.filterMap_congr
  intro e _
  simp only [List.filter_map, List.filterMap_map]
  rfl

theorem check_scrub (d : Vateud8Data) (od : OpenData) :
    d.check ⟨od.firs, scrubConfig od.config⟩ = d.check od := by
  unfold Vateud8Data.check
  rw [phaseA_scrub, phaseB_scrub]

/-- C9: the per-region `optional_frequency` flag has no observable effect:
two inputs with identical datasets whose configurations agree after
forgetting every `optional_frequency` flag produce identical results from
both `run_checks` and the reconciliation check. -/
theorem c9_theorem (od1 od2 : OpenData) (d : Vateud8Data)
    (hfirs : od1.firs = od2.firs)
    (hcfg : scrubConfig od1.config = scrubConfig od2.config) :
    od1.run_checks = od2.run_checks ∧ d.check od1 = d.check od2 := by
  constructor
  · calc od1.run_checks
        = OpenData.run_checks ⟨od2.firs, od1.config⟩ := by rw [← hfirs]
      _ = OpenData.run_checks ⟨od2.firs, od2.config⟩ :=
        run_checks_reads_only_firs _ _ _
      _ = od2.run_checks := rfl
  · calc d.check od1
        = d.check ⟨od1.firs, scrubConfig od1.config⟩ := (check_scrub d od1).symm
      _ = d.check ⟨od2.firs, scrubConfig od2.config⟩ := by rw [hfirs, hcfg]
      _ = d.check od2 := check_scrub d od2

/-- C9 (witness): two concrete inputs differing only in one region's
`optional_frequency` flag give identical check results. -/
theorem c9_witness :
    fixtureC9a.run_checks = fixtureC9b.run_checks
      ∧ Vateud8Data.check ⟨[]⟩ fixtureC9a = Vateud8Data.check ⟨[]⟩ fixtureC9b :=
  c9_theorem fixtureC9a fixtureC9b ⟨[]⟩ rfl (by decide)

/-! ### Empty-prefix collisions: claim C10 -/

/-- C10: a position with an empty prefix collides with every other position
(different (region, id)) sharing its frequency and station type: the
directional violation with the empty-prefix position as inner element is
always emitted. -/
theorem c10_theorem (od : OpenData) (a b : Str × Str × Position)
    (ha : a ∈ od.positions) (hb : b ∈ od.positions)
    (hne : a.1 ≠ b.1 ∨ a.2.1 ≠ b.2.1)
    (hfreq : a.2.2.frequency = b.2.2.frequency)
    (hst : a.2.2.station_type = b.2.2.station_type)
    (hpfx : b.2.2.pfx = []) :
    Error.DuplicatePosition a.1 a.2.1 b.1 b.2.1 ∈ od.dupeViolations := by
  unfold OpenData.dupeViolations
  have haS : a ∈ od.sortedPositions := by
    unfold OpenData.sortedPositions
    exact (List.mem_insertionSort keyLe).mpr ha
  have hbS : b ∈ od.sortedPositions := by
    unfold OpenData.sortedPositions
    exact (List.mem_insertionSort keyLe).mpr hb
  refine List.mem_flatMap.mpr ⟨a, haS, ?_⟩
  refine List.mem_map.mpr ⟨b, List.mem_filter.mpr ⟨hbS, ?_⟩, rfl⟩
  have h1 : (a.1 != b.1 || a.2.1 != b.2.1) = true := by
    rcases hne with h | h <;> simp [h]
  have h2 : strStartsWith a.2.2.pfx b.2.2.pfx = true := by
    rw [hpfx]
    simp [strStartsWith]
  have h3 : (a.2.2.frequency == b.2.2.frequency) = true := by simp [hfreq]
  have h4 : decide (a.2.2.station_type = b.2.2.station_type) = true := by simp [hst]
  unfold dupePred
  rw [h1, h2, h3, h4]
  rfl

/-- C10 (witness): in the concrete dataset where position `B` has an empty
prefix and `A` shares its frequency and station type, the collision is
emitted. -/
theorem c10_witness :
    Error.DuplicatePosition "R".toList "A".toList "R".toList "B".toList
      ∈ fixtureC10.dupeViolations :=
  c10_theorem fixtureC10
    ("R".toList, "A".toList, mkPosition 100 "ED".toList .Center [])
    ("R".toList, "B".toList, mkPosition 100 [] .Center [])
    (by decide) (by decide) (Or.inr (by decide)) rfl rfl rfl

end VatsimOpenData
